import Mathlib

/-!
Shallow embedding of `src/server.py` (repository mstcgalis/screamer), a
minimal static-file HTTP server: a `SimpleHTTPRequestHandler` subclass
whose only override is `end_headers` (it queues three CORS headers and then
calls the base method), plus startup code that changes the working
directory to the directory containing the script, binds a TCP listener on
port 8000 on all interfaces, and serves until a keyboard interrupt.

The platform pieces (the stdlib static-file handler, the socketserver
accept loop, process exit semantics) are not part of the repository; where
a definition models them it says so in its doc comment and follows the
spec's description of the platform behaviour.
-/

namespace Screamer

/-- An HTTP header line: a name and a value. -/
structure Header where
  name : String
  value : String
deriving DecidableEq, Repr

/-- The fixed listen port (src/server.py line 10: `PORT = 8000`). -/
def PORT : Nat := 8000

/-- The three CORS headers queued by `MyHTTPRequestHandler.end_headers`
(src/server.py lines 15-17), in source order. -/
def corsHeaders : List Header :=
  [⟨"Access-Control-Allow-Origin", "*"⟩,
   ⟨"Access-Control-Allow-Methods", "GET, POST, OPTIONS"⟩,
   ⟨"Access-Control-Allow-Headers", "Content-Type"⟩]

/-- Whether a header is one of the three CORS headers by name. -/
def isCorsHeader (h : Header) : Bool :=
  h.name == "Access-Control-Allow-Origin" ||
  h.name == "Access-Control-Allow-Methods" ||
  h.name == "Access-Control-Allow-Headers"

/-- Modelled from the spec: `BaseHTTPRequestHandler.end_headers` (platform
code, absent from src/) finalizes the buffered header block, emitting the
buffered headers followed by the terminal blank line.  The emitted header
block is the buffer at the moment of finalization. -/
def base_end_headers (buffered : List Header) : List Header := buffered

/-- `MyHTTPRequestHandler.end_headers` (src/server.py lines 14-19): queue
the three CORS headers with `send_header`, then finalize via the base
method (`super().end_headers()`). -/
def my_end_headers (buffered : List Header) : List Header :=
  base_end_headers (buffered ++ corsHeaders)

/-- A document-root entry: a readable file with its content bytes, a file
that exists but cannot be opened (permission or read error), or a
directory with the names of its immediate children. -/
inductive Entry where
  | file (content : List Nat)
  | unreadable
  | dir (children : List String)
deriving DecidableEq, Repr

/-- The document root: an association of request paths to entries. -/
abbrev FileSystem := List (String × Entry)

/-- A response body: file bytes, a generated directory listing enumerating
the directory's immediate children, a minimal error page, or empty (HEAD). -/
inductive Body where
  | fileBytes (content : List Nat)
  | listing (children : List String)
  | errorPage (status : Nat)
  | empty
deriving DecidableEq, Repr

/-- An HTTP response: status code, the finalized header block, body. -/
structure Response where
  status : Nat
  headers : List Header
  body : Body
deriving DecidableEq, Repr

/-- Index file names the platform handler looks for inside a directory
(modelled from the spec: "the platform default index file if present"). -/
def indexFiles : List String := ["index.html", "index.htm"]

/-- Whether a child name is one of the platform index file names. -/
def isIndexFile (c : String) : Bool := indexFiles.contains c

/-- Headers queued by the platform error path (`send_error`). -/
def errorHeaders : List Header :=
  [⟨"Content-Type", "text/html;charset=utf-8"⟩]

/-- Modelled from the spec: the status for a permission/read error on an
existing file ("permission/read error → 500 or 403 depending on platform
default", spec §7). -/
def readErrorStatus : Nat := 403

/-- Modelled from the spec: the inferred content type of a served file
("GET/HEAD return file bytes with inferred content type", spec §4.1). -/
def contentTypeFor (p : String) : String :=
  if p.endsWith ".html" then "text/html" else "application/octet-stream"

/-- Modelled from the spec: serving a single file by path (platform code,
absent from src/): a resolvable readable file yields 200 with its bytes,
content type and length; otherwise 404 with a minimal body. -/
def sendFile (fs : FileSystem) (p : String) : Nat × List Header × Body :=
  match fs.lookup p with
  | some (Entry.file content) =>
      (200,
       [⟨"Content-type", contentTypeFor p⟩,
        ⟨"Content-Length", toString content.length⟩],
       Body.fileBytes content)
  | _ => (404, errorHeaders, Body.errorPage 404)

/-- Modelled from the spec: `SimpleHTTPRequestHandler.send_head` (platform
code, absent from src/): map the request path to a file or directory under
the document root; a readable file yields 200 with its bytes; a directory
with an index file serves that index file; a directory without one yields
a generated listing (200) of its immediate children; an unresolvable path
yields 404; a permission/read error yields the platform error status. -/
def send_head (fs : FileSystem) (p : String) : Nat × List Header × Body :=
  match fs.lookup p with
  | none => (404, errorHeaders, Body.errorPage 404)
  | some Entry.unreadable =>
      (readErrorStatus, errorHeaders, Body.errorPage readErrorStatus)
  | some (Entry.file content) =>
      (200,
       [⟨"Content-type", contentTypeFor p⟩,
        ⟨"Content-Length", toString content.length⟩],
       Body.fileBytes content)
  | some (Entry.dir children) =>
      match children.find? isIndexFile with
      | some idx => sendFile fs (p ++ "/" ++ idx)
      | none =>
          (200,
           [⟨"Content-type", "text/html;charset=utf-8"⟩,
            ⟨"Content-Length", toString children.length⟩],
           Body.listing children)

/-- An incoming request: either a malformed request line, or a parsed
method and path. -/
inductive RawRequest where
  | malformed
  | ok (method : String) (path : String)
deriving DecidableEq, Repr

/-- Methods for which a `do_<METHOD>` handler exists: the platform
static-file handler defines `do_GET` and `do_HEAD`, and
`MyHTTPRequestHandler` (src/server.py line 13) overrides only
`end_headers`, adding no method handler. -/
def handlerMethods : List String := ["GET", "HEAD"]

/-- Modelled from the spec: `BaseHTTPRequestHandler.handle_one_request`
(platform code, absent from src/): a malformed request line yields 400; a
method with no `do_<METHOD>` handler yields 501 Unsupported method;
otherwise `send_head` runs, and for HEAD the body is suppressed.  Returns
the status, the buffered (not yet finalized) headers, and the body. -/
def handle_one_request (fs : FileSystem) (raw : RawRequest) :
    Nat × List Header × Body :=
  match raw with
  | RawRequest.malformed => (400, errorHeaders, Body.errorPage 400)
  | RawRequest.ok m p =>
      if handlerMethods.contains m then
        if m = "HEAD" then
          ((send_head fs p).1, (send_head fs p).2.1, Body.empty)
        else send_head fs p
      else (501, errorHeaders, Body.errorPage 501)

/-- Run one request through the handler pipeline with a given
`end_headers` hook finalizing the buffered header block. -/
def runHandler (endH : List Header → List Header) (fs : FileSystem)
    (raw : RawRequest) : Response :=
  let r := handle_one_request fs raw
  ⟨r.1, endH r.2.1, r.2.2⟩

/-- The platform default static-file handler, unmodified. -/
def baseHandle (fs : FileSystem) (raw : RawRequest) : Response :=
  runHandler base_end_headers fs raw

/-- `MyHTTPRequestHandler` (src/server.py lines 13-19): the platform
static-file handler with only the `end_headers` hook overridden. -/
def myHandle (fs : FileSystem) (raw : RawRequest) : Response :=
  runHandler my_end_headers fs raw

/-- The spec's description of the served response (spec §4.1 and §9): the
response the platform default handler would produce for the same request,
with the three CORS headers added to the header block before finalization
and everything else unchanged. -/
def specResponse (fs : FileSystem) (raw : RawRequest) : Response :=
  let b := baseHandle fs raw
  ⟨b.status, b.headers ++ corsHeaders, b.body⟩

/-- A startup-time effect of the script body (src/server.py lines 21-26). -/
inductive Event where
  | chdir (dir : List String)
  | bind (host : String) (port : Nat)
  | outLine (s : String)
  | serve
deriving DecidableEq, Repr

/-- Whether an event is a socket bind. -/
def isBindEvent : Event → Bool
  | Event.bind _ _ => true
  | _ => false

/-- `os.path.dirname` applied to an absolute path given as its segments:
drop the final segment (the file name), keeping the containing directory. -/
def dirname (segments : List String) : List String := segments.dropLast

/-- The banner printed at startup (src/server.py line 24, with `PORT`
interpolated). -/
def startBanner : String := "Plači server running at http://localhost:8000/"

/-- The second startup line (src/server.py line 25). -/
def stopHint : String := "Press Ctrl+C to stop"

/-- The shutdown notice printed on keyboard interrupt (src/server.py
line 29). -/
def stopMessage : String := "\nServer stopped"

/-- The operator-visible bind failure report.  Modelled from the spec:
"port bind failure → process exits with nonzero status and an error
message to standard error" (spec §7); the platform raises an
address-in-use error from the `TCPServer` constructor and the script
installs no handler for it. -/
def bindErrorMessage : String := "OSError: [Errno 98] Address already in use"

/-- The ordered startup effects of src/server.py lines 21-26, given the
absolute path of the script (`os.path.abspath(__file__)`) as segments:
change the working directory to the directory containing the script, bind
the wildcard host on `PORT`, print the two banner lines, enter the accept
loop. -/
def startupTrace (absScriptPath : List String) : List Event :=
  [Event.chdir (dirname absScriptPath),
   Event.bind "" PORT,
   Event.outLine startBanner,
   Event.outLine stopHint,
   Event.serve]

/-- Whether the `TCPServer` constructor managed to bind the port. -/
inductive BindOutcome where
  | bound
  | errAddrInUse
deriving DecidableEq, Repr

/-- The observable fate of the process: exited with a status, stderr lines
and stdout lines, or still serving (the accept loop running indefinitely)
with the stdout lines printed so far. -/
inductive ProcessOutcome where
  | exited (code : Nat) (stderrLines : List String) (stdoutLines : List String)
  | serving (stdoutLines : List String)
deriving DecidableEq, Repr

/-- src/server.py lines 23-29, with the platform pieces modelled from the
spec: a failed bind raises from the `TCPServer` constructor before
anything is printed, and the uncaught exception terminates the process
with the error on stderr and a nonzero status, with no retry.  With a
successful bind the two banner lines are printed and `serve_forever` runs
until a keyboard interrupt, which the script catches (src/server.py lines
28-29) to print the stopped message and fall off the end of the program,
exiting with status 0. -/
def runMain (b : BindOutcome) (interrupted : Bool) : ProcessOutcome :=
  match b with
  | BindOutcome.errAddrInUse =>
      ProcessOutcome.exited 1 [bindErrorMessage] []
  | BindOutcome.bound =>
      if interrupted then
        ProcessOutcome.exited 0 [] [startBanner, stopHint, stopMessage]
      else
        ProcessOutcome.serving [startBanner, stopHint]

/-- Modelled from the spec: the socketserver accept loop
(`httpd.serve_forever()`, src/server.py line 27): each incoming connection
is handled in turn by the handler; per-request failures are contained in
the handler (`handle_error`) and the loop moves on to the next
connection. -/
def serve_forever (fs : FileSystem) : List RawRequest → List Response
  | [] => []
  | r :: rest => myHandle fs r :: serve_forever fs rest

/-! ## Helper lemmas -/

/-- No header queued by the file-serving path is a CORS header. -/
theorem cors_free_sendFile (fs : FileSystem) (p : String) :
    ∀ h ∈ (sendFile fs p).2.1, isCorsHeader h = false := by
  unfold sendFile
  split
  · intro h hh
    fin_cases hh
    all_goals rfl
  · intro h hh
    fin_cases hh
    all_goals rfl

/-- No header queued by `send_head` is a CORS header. -/
theorem cors_free_send_head (fs : FileSystem) (p : String) :
    ∀ h ∈ (send_head fs p).2.1, isCorsHeader h = false := by
  unfold send_head
  split
  · intro h hh
    fin_cases hh
    all_goals rfl
  · intro h hh
    fin_cases hh
    all_goals rfl
  · intro h hh
    fin_cases hh
    all_goals rfl
  · split
    · exact cors_free_sendFile fs _
    · intro h hh
      fin_cases hh
      all_goals rfl

/-- No header buffered before finalization by the base handler is a CORS
header: the base handler never queues an `Access-Control-*` header. -/
theorem cors_free_base (fs : FileSystem) (raw : RawRequest) :
    ∀ h ∈ (handle_one_request fs raw).2.1, isCorsHeader h = false := by
  cases raw with
  | malformed =>
      intro h hh
      fin_cases hh
      all_goals rfl
  | ok m p =>
      simp only [handle_one_request]
      split
      · split
        · exact cors_free_send_head fs p
        · exact cors_free_send_head fs p
      · intro h hh
        fin_cases hh
        rfl

/-- `corsHeaders` is invariant under the CORS filter. -/
theorem filter_cors_corsHeaders :
    corsHeaders.filter isCorsHeader = corsHeaders := rfl

/-! ## Claims -/

/-- C1: For every HTTP response the server emits — any document root, any
request (any path, any method, malformed or not), any resulting status
including 404 and 400 — the finalized header block contains exactly the
three CORS headers `Access-Control-Allow-Origin: *`,
`Access-Control-Allow-Methods: GET, POST, OPTIONS` and
`Access-Control-Allow-Headers: Content-Type`, appended by the overridden
`end_headers` before the block is finalized. -/
theorem cors_headers_on_every_response (fs : FileSystem) (raw : RawRequest) :
    (myHandle fs raw).headers.filter isCorsHeader = corsHeaders ∧
    ∃ pre, (myHandle fs raw).headers = pre ++ corsHeaders ∧
      ∀ h ∈ pre, isCorsHeader h = false := by
  have hbase := cors_free_base fs raw
  have hh : (myHandle fs raw).headers
      = (handle_one_request fs raw).2.1 ++ corsHeaders := rfl
  have hnil : ((handle_one_request fs raw).2.1).filter isCorsHeader = [] :=
    List.filter_eq_nil_iff.mpr (by simpa using hbase)
  refine ⟨?_, (handle_one_request fs raw).2.1, hh, hbase⟩
  rw [hh, List.filter_append, hnil, List.nil_append, filter_cors_corsHeaders]

/-- C2: A GET request for a path that resolves to nothing under the
document root yields a response with status 404. -/
theorem get_missing_path_404 (fs : FileSystem) (p : String)
    (h : fs.lookup p = none) :
    (myHandle fs (RawRequest.ok "GET" p)).status = 404 := by
  have hs : (myHandle fs (RawRequest.ok "GET" p)).status
      = (send_head fs p).1 := rfl
  rw [hs]
  unfold send_head
  rw [h]

/-- Witness for C2 at the empty document root and path `/nope`. -/
theorem get_missing_path_404_witness :
    (([] : FileSystem).lookup "/nope" = none) ∧
    (myHandle [] (RawRequest.ok "GET" "/nope")).status = 404 :=
  ⟨rfl, get_missing_path_404 [] "/nope" rfl⟩

/-- C3: The startup sequence first changes the working directory to the
directory containing the script (`dirname` of the script's absolute
path), then binds the wildcard host (all interfaces) on port 8000 — the
only bind the trace performs — and only afterwards enters the accept
loop, so request paths are resolved relative to that directory. -/
theorem startup_chdir_then_bind_8000 (absScriptPath : List String) :
    PORT = 8000 ∧
    (startupTrace absScriptPath)[0]?
      = some (Event.chdir (dirname absScriptPath)) ∧
    (startupTrace absScriptPath)[1]? = some (Event.bind "" 8000) ∧
    (startupTrace absScriptPath)[4]? = some Event.serve ∧
    (startupTrace absScriptPath).filter isBindEvent = [Event.bind "" 8000] :=
  ⟨rfl, rfl, rfl, rfl, rfl⟩

/-- C4: When the port cannot be bound (address already in use), the
process exits at once with a nonzero status and a nonempty error report
on standard error, never reaching the serving state and printing nothing
to standard output — no retry, no hang, no silent success. -/
theorem bind_failure_fails_fast (i : Bool) :
    ∃ code stderrLines,
      runMain BindOutcome.errAddrInUse i
        = ProcessOutcome.exited code stderrLines [] ∧
      code ≠ 0 ∧ stderrLines ≠ [] :=
  ⟨1, [bindErrorMessage], rfl, by decide, by simp⟩

/-- C5: Request-level failures are contained in their own handling path:
any request — malformed or failing — in the middle of the accept loop's
input stream produces its own response in place while the loop serves
every subsequent request unchanged; a malformed request is surfaced as
status 400; and after a successful bind without interrupt the process is
still serving, not exited. -/
theorem request_failures_contained (fs : FileSystem)
    (xs ys : List RawRequest) (bad : RawRequest) :
    serve_forever fs (xs ++ bad :: ys)
      = serve_forever fs xs ++ myHandle fs bad :: serve_forever fs ys ∧
    (myHandle fs RawRequest.malformed).status = 400 ∧
    runMain BindOutcome.bound false
      = ProcessOutcome.serving [startBanner, stopHint] := by
  refine ⟨?_, rfl, rfl⟩
  induction xs with
  | nil => rfl
  | cons x xs ih =>
      simp only [List.cons_append, serve_forever, List.append_eq]
      rw [ih]

/-- C6: After a successful start, a keyboard interrupt makes the process
print the stopped message and exit with status 0. -/
theorem interrupt_prints_stopped_and_exits_zero :
    runMain BindOutcome.bound true
      = ProcessOutcome.exited 0 [] [startBanner, stopHint, stopMessage] ∧
    stopMessage ∈ [startBanner, stopHint, stopMessage] :=
  ⟨rfl, by simp⟩

/-- C7: Contrary to the announced `Access-Control-Allow-Methods: GET,
POST, OPTIONS`, an OPTIONS preflight (and a POST) is rejected as
unsupported with status 501: the platform static-file handler defines
only `do_GET` and `do_HEAD` and `MyHTTPRequestHandler` adds no method
handler; the rejected response still carries the CORS headers. -/
theorem options_preflight_rejected_501 :
    (myHandle [] (RawRequest.ok "OPTIONS" "/")).status = 501 ∧
    (myHandle [] (RawRequest.ok "POST" "/")).status = 501 ∧
    Header.mk "Access-Control-Allow-Methods" "GET, POST, OPTIONS"
      ∈ (myHandle [] (RawRequest.ok "OPTIONS" "/")).headers := by
  decide

/-- C8: A GET for a directory that contains no index file yields status
200 with a generated listing enumerating the directory's immediate
children. -/
theorem dir_without_index_lists_children (fs : FileSystem) (p : String)
    (children : List String)
    (hdir : fs.lookup p = some (Entry.dir children))
    (hnoidx : children.find? isIndexFile = none) :
    (myHandle fs (RawRequest.ok "GET" p)).status = 200 ∧
    (myHandle fs (RawRequest.ok "GET" p)).body = Body.listing children := by
  have hsend : send_head fs p
      = (200,
         [⟨"Content-type", "text/html;charset=utf-8"⟩,
          ⟨"Content-Length", toString children.length⟩],
         Body.listing children) := by
    simp [send_head, hdir, hnoidx]
  constructor
  · show (send_head fs p).1 = 200
    rw [hsend]
  · show (send_head fs p).2.2 = Body.listing children
    rw [hsend]

/-- A small concrete document root: one directory with two children and
no index file. -/
def demoFS : FileSystem := [("/d", Entry.dir ["a.txt", "b.txt"])]

/-- Witness for C8 at `demoFS` and path `/d`. -/
theorem dir_without_index_lists_children_witness :
    demoFS.lookup "/d" = some (Entry.dir ["a.txt", "b.txt"]) ∧
    (["a.txt", "b.txt"].find? isIndexFile = none) ∧
    (myHandle demoFS (RawRequest.ok "GET" "/d")).status = 200 ∧
    (myHandle demoFS (RawRequest.ok "GET" "/d")).body
      = Body.listing ["a.txt", "b.txt"] := by
  refine ⟨rfl, rfl, ?_, ?_⟩
  · exact (dir_without_index_lists_children demoFS "/d"
      ["a.txt", "b.txt"] rfl rfl).1
  · exact (dir_without_index_lists_children demoFS "/d"
      ["a.txt", "b.txt"] rfl rfl).2

/-- C10: For every request the served response is exactly the platform
default static-file handler's response with the three CORS headers added
to its header block — only the header-finalization hook differs, so
status, body and all other headers are unchanged. -/
theorem only_end_headers_overridden (fs : FileSystem) (raw : RawRequest) :
    myHandle fs raw = specResponse fs raw := rfl

end Screamer
